import Mathlib

/-!
Verification of the Solana wallet-tracker core (payload normalizer,
involvement matcher, notification formatter) against its specification.

The TypeScript sources are embedded shallowly:
* JS numbers holding lamport balances / amounts are modelled as `Int`
  (all balance arithmetic in the source is integer-valued);
* display-unit arithmetic in the formatter (divisions by 1e9 and 10^decimals)
  is modelled over `ℚ` (the concrete values exercised are exactly
  representable as doubles, so rational arithmetic agrees with the source);
* JS `undefined`-able fields become `Option`; JS truthiness of strings and
  numbers is modelled explicitly (`strTruthy`, `strFalsy`, `numFalsy`);
* out-of-range indexing producing `undefined`/`NaN` (which makes every
  comparison false in JS) is modelled by `Option`-valued lookups that
  make the guards false;
* `async`/network effects are modelled by explicit oracles: delivery
  outcomes and metadata lookups are function parameters, and the
  formatter's metadata cache is threaded explicitly as state.
-/

namespace Wallet

/-! ## Data model (src/types.ts) -/

/-- Model of `NativeTransfer` from src/types.ts. -/
structure NativeTransfer where
  fromUserAccount : String
  toUserAccount : String
  amount : Int
deriving Repr, DecidableEq

/-- Model of `TokenTransfer` from src/types.ts. -/
structure TokenTransfer where
  fromUserAccount : String
  toUserAccount : String
  fromTokenAccount : String
  toTokenAccount : String
  tokenAmount : Int
  mint : String
  tokenStandard : String
deriving Repr, DecidableEq

/-- Model of `AccountData` from src/types.ts (the optional `tokenBalanceChanges`
list is never read by the matcher or formatter and is always `[]` in the
raw path, so it is not carried). -/
structure AccountData where
  account : String
  nativeBalanceChange : Int
deriving Repr, DecidableEq

/-- Model of `TransactionData` from src/types.ts.  The optional sequence fields
(`nativeTransfers?` etc.) are modelled as plain lists: the code only ever
iterates them behind a truthiness guard, so `undefined` and `[]` are
observationally equal.  `instructions` entries are opaque JSON carried as
strings. -/
structure TransactionData where
  signature : String
  slot : Int
  timestamp : Int
  fee : Int
  feePayer : String
  instructions : List String
  nativeTransfers : List NativeTransfer
  tokenTransfers : List TokenTransfer
  accountData : List AccountData
  transactionError : Option String
  type : String
  source : String
  description : String
deriving Repr, DecidableEq

/-! ## Incoming webhook payload model

The webhook body is untyped JSON in the source.  The fields actually read
by `TransactionProcessor` are modelled as typed optional fields. -/

/-- One entry of `meta.preTokenBalances` / `meta.postTokenBalances`.
`amount` stands for `parseInt(entry.uiTokenAmount?.amount || '0')`. -/
structure TokenBalance where
  accountIndex : Nat
  owner : String
  mint : String
  amount : Int
deriving Repr, DecidableEq

/-- The nested `transaction` object of a raw-shape payload.
`accountKeys` and `instructions` stand for `transaction.message?.accountKeys`
and `transaction.message?.instructions`. -/
structure RawTx where
  signatures : List String
  accountKeys : List String
  instructions : List String
deriving Repr, DecidableEq

/-- The nested `meta` object of a raw-shape payload. -/
structure RawMeta where
  fee : Option Int
  err : Option String
  preBalances : List Int
  postBalances : List Int
  preTokenBalances : List TokenBalance
  postTokenBalances : List TokenBalance
deriving Repr, DecidableEq

/-- One webhook payload item (untyped JSON object in the source); only the
fields the processor reads are modelled. -/
structure WebhookItem where
  type : Option String
  signature : Option String
  slot : Option Int
  timestamp : Option Int
  fee : Option Int
  feePayer : Option String
  instructions : Option (List String)
  nativeTransfers : Option (List NativeTransfer)
  tokenTransfers : Option (List TokenTransfer)
  accountData : Option (List AccountData)
  transactionError : Option String
  source : Option String
  description : Option String
  blockTime : Option Int
  transaction : Option RawTx
  meta : Option RawMeta
deriving Repr, DecidableEq

/-- The webhook body: an array of items or a single object. -/
inductive WebhookBody where
  | arr (items : List WebhookItem)
  | obj (item : WebhookItem)
deriving Repr, DecidableEq

/-! ## JS truthiness helpers -/

/-- JS `o || d` for an optional string: the empty string is falsy in JS. -/
def strFalsy (o : Option String) (d : String) : String :=
  match o with
  | some s => if s = "" then d else s
  | none => d

/-- JS `o || d` for an optional number: `0` is falsy in JS. -/
def numFalsy (o : Option Int) (d : Int) : Int :=
  match o with
  | some n => if n = 0 then d else n
  | none => d

/-- JS `o || d` for an optional natural number (used for token decimals). -/
def natFalsy (o : Option Nat) (d : Nat) : Nat :=
  match o with
  | some n => if n = 0 then d else n
  | none => d

/-- JS truthiness of an optional string value. -/
def strTruthy (o : Option String) : Bool :=
  match o with
  | some s => s ≠ ""
  | none => false

/-! ## Raw-shape extraction (TransactionProcessor.extractNativeTransfers,
extractTokenTransfers, extractAccountData) -/

/-- Delta `postBalances[i] - preBalances[i]`; `none` models the JS `NaN`
produced when an index is out of range (every comparison against `NaN`
is false, which `Option` matches mirror). -/
def deltaAt (pre post : List Int) (i : Nat) : Option Int :=
  match pre.get? i, post.get? i with
  | some p, some q => some (q - p)
  | _, _ => none

/-- The inner-loop guard of `extractNativeTransfers`:
`i !== j && Math.abs(difference + otherDifference) < 1000`. -/
def matchesAt (pre post : List Int) (difference : Int) (i j : Nat) : Bool :=
  (!(j == i)) &&
    (match deltaAt pre post j with
     | some otherDifference => decide ((difference + otherDifference).natAbs < 1000)
     | none => false)

/-- Scan `j, j+1, ...` (with `fuel` indices remaining) for the first `j`
satisfying `matchesAt`; mirrors the inner `for`-loop with `break`. -/
def findJFrom (pre post : List Int) (i : Nat) (difference : Int) :
    Nat → Nat → Option Nat
  | 0, _ => none
  | fuel + 1, j =>
      if matchesAt pre post difference i j then some j
      else findJFrom pre post i difference fuel (j + 1)

/-- First matching `j` in index order, over `0 ≤ j < preBalances.length`. -/
def findMatchingJ (pre post : List Int) (i : Nat) (difference : Int) : Option Nat :=
  findJFrom pre post i difference pre.length 0

/-- The body of the outer loop of `extractNativeTransfers` for index `i`:
the transfer pushed for `i`, if any.  `accountKeys.getD _ ""` models JS
indexing past the end of `accountKeys` (undefined). -/
def nativeTransferAt (pre post : List Int) (accountKeys : List String) (i : Nat) :
    Option NativeTransfer :=
  match deltaAt pre post i with
  | some difference =>
      if difference.natAbs > 0 then
        match findMatchingJ pre post i difference with
        | some j =>
            some { fromUserAccount := accountKeys.getD (if difference < 0 then i else j) ""
                   toUserAccount := accountKeys.getD (if difference < 0 then j else i) ""
                   amount := (difference.natAbs : Int) }
        | none => none
      else none
  | none => none

/-- Model of `TransactionProcessor.extractNativeTransfers`. -/
def extractNativeTransfers (pre post : List Int) (accountKeys : List String) :
    List NativeTransfer :=
  (List.range pre.length).filterMap (nativeTransferAt pre post accountKeys)

/-- Model of `TransactionProcessor.extractTokenTransfers`.  The source stores the
numeric `accountIndex` into the string-typed token-account fields; that is
rendered as its decimal string here. -/
def extractTokenTransfers (preTokenBalances postTokenBalances : List TokenBalance) :
    List TokenTransfer :=
  preTokenBalances.filterMap (fun preBalance =>
    match postTokenBalances.find? (fun post => post.accountIndex == preBalance.accountIndex) with
    | some postBalance =>
        let difference := postBalance.amount - preBalance.amount
        if difference = 0 then none
        else
          some { fromUserAccount := preBalance.owner
                 toUserAccount := postBalance.owner
                 fromTokenAccount := toString preBalance.accountIndex
                 toTokenAccount := toString postBalance.accountIndex
                 tokenAmount := (difference.natAbs : Int)
                 mint := preBalance.mint
                 tokenStandard := "fungible" }
    | none => none)

/-- Model of `TransactionProcessor.extractAccountData`. -/
def extractAccountData (pre post : List Int) (accountKeys : List String) :
    List AccountData :=
  (List.range accountKeys.length).filterMap (fun i =>
    let preBalance := pre.getD i 0
    let postBalance := post.getD i 0
    let nativeBalanceChange := postBalance - preBalance
    if nativeBalanceChange = 0 then none
    else some { account := accountKeys.getD i "", nativeBalanceChange := nativeBalanceChange })

/-! ## Payload normalization (TransactionProcessor.parseTransactionData,
parseRawTransaction, generateDescription, extractTransactions) -/

/-- Replace `_` by a space (`type.replace(/_/g, ' ')`). -/
def replaceUnderscores (s : String) : String :=
  s.map (fun c => if c = '_' then ' ' else c)

/-- JS `\w` word character (ASCII letter, digit or underscore). -/
def isWordChar (c : Char) : Bool :=
  c.isAlphanum || c == '_'

/-- Uppercase every word character at a word boundary; the boolean carries
whether the previous character was a word character. -/
def capWordsAux : List Char → Bool → List Char
  | [], _ => []
  | c :: cs, prevWord =>
      (if isWordChar c && !prevWord then c.toUpper else c) :: capWordsAux cs (isWordChar c)

/-- JS `.replace(/\b\w/g, l => l.toUpperCase())`. -/
def capitalizeWordStarts (s : String) : String :=
  ⟨capWordsAux s.data false⟩

/-- Model of `TransactionProcessor.generateDescription`. -/
def generateDescription (d : WebhookItem) : String :=
  if (d.nativeTransfers.getD []).length > 0 then "SOL Transfer"
  else if (d.tokenTransfers.getD []).length > 0 then "Token Transfer"
  else if strTruthy d.type then capitalizeWordStarts (replaceUnderscores (d.type.getD ""))
  else "Solana Transaction"

/-- The structural probe for the enhanced shape: `data.type && data.signature`. -/
def isEnhancedShape (d : WebhookItem) : Bool :=
  strTruthy d.type && strTruthy d.signature

/-- The structural probe for the raw shape: `data.transaction && data.meta`. -/
def isRawShape (d : WebhookItem) : Bool :=
  d.transaction.isSome && d.meta.isSome

/-- Model of `TransactionProcessor.parseRawTransaction`.  `now` is the ambient
clock value `Math.floor(Date.now() / 1000)`. -/
def parseRawTransaction (d : WebhookItem) (now : Int) : Option TransactionData :=
  match d.transaction, d.meta with
  | some tx, some meta =>
      some { signature := strFalsy tx.signatures.head? ""
             slot := numFalsy d.slot 0
             timestamp := numFalsy d.blockTime now
             fee := numFalsy meta.fee 0
             feePayer := strFalsy tx.accountKeys.head? ""
             instructions := tx.instructions
             nativeTransfers := extractNativeTransfers meta.preBalances meta.postBalances tx.accountKeys
             tokenTransfers := extractTokenTransfers meta.preTokenBalances meta.postTokenBalances
             accountData := extractAccountData meta.preBalances meta.postBalances tx.accountKeys
             transactionError := meta.err
             type := "UNKNOWN"
             source := "raw"
             description := "Raw transaction data" }
  | _, _ => none

/-- Model of `TransactionProcessor.parseTransactionData`. -/
def parseTransactionData (d : WebhookItem) (now : Int) : Option TransactionData :=
  if isEnhancedShape d then
    some { signature := d.signature.getD ""
           slot := numFalsy d.slot 0
           timestamp := numFalsy d.timestamp now
           fee := numFalsy d.fee 0
           feePayer := strFalsy d.feePayer ""
           instructions := d.instructions.getD []
           nativeTransfers := d.nativeTransfers.getD []
           tokenTransfers := d.tokenTransfers.getD []
           accountData := d.accountData.getD []
           transactionError := d.transactionError
           type := d.type.getD ""
           source := strFalsy d.source "helius"
           description := strFalsy d.description (generateDescription d) }
  else if isRawShape d then
    parseRawTransaction d now
  else none

/-- Model of `TransactionProcessor.extractTransactions`. -/
def extractTransactions (webhookData : WebhookBody) (now : Int) : List TransactionData :=
  match webhookData with
  | .arr items => items.filterMap (fun item => parseTransactionData item now)
  | .obj item =>
      if item.transaction.isSome || item.meta.isSome then
        match parseTransactionData item now with
        | some t => [t]
        | none => []
      else []

/-! ## Involvement matcher (TransactionProcessor.findInvolvedWallets) -/

/-- JS `Set.add` with insertion order (`Array.from` preserves it). -/
def setAdd (acc : List String) (x : String) : List String :=
  if x ∈ acc then acc else acc ++ [x]

/-- JS `if (trackedAddresses.includes(x)) involvedWallets.add(x)`. -/
def addIfTracked (tracked acc : List String) (x : String) : List String :=
  if x ∈ tracked then setAdd acc x else acc

/-- Model of `TransactionProcessor.findInvolvedWallets`. -/
def findInvolvedWallets (t : TransactionData) (trackedAddresses : List String) :
    List String :=
  let s0 := addIfTracked trackedAddresses [] t.feePayer
  let s1 := t.nativeTransfers.foldl
    (fun acc transfer =>
      addIfTracked trackedAddresses
        (addIfTracked trackedAddresses acc transfer.fromUserAccount)
        transfer.toUserAccount) s0
  let s2 := t.tokenTransfers.foldl
    (fun acc transfer =>
      addIfTracked trackedAddresses
        (addIfTracked trackedAddresses acc transfer.fromUserAccount)
        transfer.toUserAccount) s1
  t.accountData.foldl
    (fun acc account => addIfTracked trackedAddresses acc account.account) s2

/-! ## Notification formatter (DiscordNotifier) -/

/-- Model of `DiscordNotifier.truncateAddress`. -/
def truncateAddress (address : String) : String :=
  if address.length ≤ 12 then address
  else address.take 6 ++ "..." ++ address.drop (address.length - 6)

/-! ## Concrete fixtures used in the theorems -/

/-- A concrete transaction used in matcher claims: a single native
transfer of 5 lamports from "X" to "Y", fee payer "F". -/
def nativeOnlyTx : TransactionData :=
  { signature := "sig1", slot := 1, timestamp := 0, fee := 0, feePayer := "F"
    instructions := [], nativeTransfers := [⟨"X", "Y", 5⟩], tokenTransfers := []
    accountData := [], transactionError := none, type := "TRANSFER"
    source := "helius", description := "SOL Transfer" }

/-- A transaction whose signature is the empty string but whose fee payer
is "X": produced e.g. by the raw-shape branch when the signature list is
empty. -/
def emptySigTx : TransactionData :=
  { signature := "", slot := 0, timestamp := 0, fee := 0, feePayer := "X"
    instructions := [], nativeTransfers := [], tokenTransfers := []
    accountData := [], transactionError := none, type := "UNKNOWN"
    source := "raw", description := "Raw transaction data" }

/-- The transfer object pushed for a matched pair `(i, j)` with outer
delta `d`: the negative-delta side is the sender. -/
def pairedTransfer (keys : List String) (i j : Nat) (d : Int) : NativeTransfer :=
  { fromUserAccount := keys.getD (if d < 0 then i else j) ""
    toUserAccount := keys.getD (if d < 0 then j else i) ""
    amount := (d.natAbs : Int) }

/-! ## Delivery pipeline (TransactionProcessor.processTransaction,
handleSingleTransaction; DiscordNotifier.sendWithRetry) -/

/-- Model of `DiscordNotifier.maxRetries`. -/
def maxRetries : Nat := 3

/-- The recursion of `sendWithRetry`, made structural on a fuel argument:
the guard `attempt < maxRetries` caps the recursion depth, so any fuel
above `maxRetries` is never exhausted and the fuel does not change the
function's value at the call sites used. -/
def sendAttemptsFrom (attemptOk : Nat → Bool) : Nat → Nat → Bool
  | 0, _ => false
  | fuel + 1, attempt =>
      if attemptOk attempt then true
      else if attempt < maxRetries then sendAttemptsFrom attemptOk fuel (attempt + 1)
      else false

/-- Model of `DiscordNotifier.sendWithRetry`, with the network modelled by an
oracle giving each attempt's outcome; returns whether delivery ultimately
succeeded (the source rethrows after the last failed attempt). -/
def sendWithRetry (attemptOk : Nat → Bool) (attempt : Nat) : Bool :=
  sendAttemptsFrom attemptOk (maxRetries + 1) attempt

/-- Ultimate outcome of `DiscordNotifier.sendTransactionNotification` for
one (transaction, wallet) pair: success iff `sendWithRetry` starting at
attempt 1 succeeds (formatting itself cannot fail in the model). -/
def deliverOutcome (attemptOk : TransactionData → String → Nat → Bool)
    (t : TransactionData) (walletAddress : String) : Bool :=
  sendWithRetry (attemptOk t walletAddress) 1

/-- The notification loop of `handleSingleTransaction`: the wallets
notified, in order.  A failed delivery throws, aborting the rest of the
loop (the exception lands in `handleSingleTransaction`'s catch). -/
def runNotifyLoop (deliver : TransactionData → String → Bool)
    (t : TransactionData) : List String → List String
  | [] => []
  | w :: ws => if deliver t w then w :: runNotifyLoop deliver t ws else []

/-- Model of `TransactionProcessor.handleSingleTransaction`, returning the wallets
actually notified; its catch swallows any delivery error. -/
def handleSingleTransaction (deliver : TransactionData → String → Bool)
    (tracked : List String) (t : TransactionData) : List String :=
  runNotifyLoop deliver t (findInvolvedWallets t tracked)

/-- Model of `TransactionProcessor.processTransaction`, returning the
(signature, wallet) pairs notified across the whole webhook body. -/
def processTransaction (deliver : TransactionData → String → Bool)
    (tracked : List String) (webhookData : WebhookBody) (now : Int) :
    List (String × String) :=
  ((extractTransactions webhookData now).map (fun t =>
    (handleSingleTransaction deliver tracked t).map (fun w => (t.signature, w)))).flatten

/-! ## Webhook item fixtures -/

/-- A payload item with every field absent (malformed: neither shape). -/
def blankItem : WebhookItem :=
  ⟨none, none, none, none, none, none, none, none, none,
   none, none, none, none, none, none, none⟩

/-- A well-formed enhanced-shape item, signature "S1". -/
def enhItem : WebhookItem :=
  { blankItem with
      type := some "TRANSFER", signature := some "S1", feePayer := some "F"
      nativeTransfers := some [⟨"X", "Y", 5⟩] }

/-- The same enhanced-shape item with signature "S2". -/
def enhItem2 : WebhookItem :=
  { enhItem with signature := some "S2" }

/-- The canonical transaction `parseTransactionData` produces for
`enhItem` at clock 0. -/
def tEnh : TransactionData :=
  { signature := "S1", slot := 0, timestamp := 0, fee := 0, feePayer := "F"
    instructions := [], nativeTransfers := [⟨"X", "Y", 5⟩], tokenTransfers := []
    accountData := [], transactionError := none, type := "TRANSFER"
    source := "helius", description := "SOL Transfer" }

/-- A well-formed raw-shape item. -/
def rawItemGood : WebhookItem :=
  { blankItem with
      transaction := some ⟨["S3"], ["A", "B"], []⟩
      meta := some ⟨some 5000, none, [1000000000, 500000000],
                    [999995000, 500005000], [], []⟩ }

/-- A raw-shape item whose signature list is empty. -/
def rawItemNoSig : WebhookItem :=
  { blankItem with
      transaction := some ⟨[], ["A"], []⟩
      meta := some ⟨none, none, [], [], [], []⟩ }

/-- An attempt oracle for which every delivery attempt for wallet "X"
fails and every other delivery succeeds at once. -/
def failXAttempts : TransactionData → String → Nat → Bool :=
  fun _ walletAddress _ => walletAddress != "X"

/-- An attempt oracle for which every delivery attempt for transaction
"S1" fails and every other delivery succeeds at once. -/
def failS1Attempts : TransactionData → String → Nat → Bool :=
  fun t _ _ => t.signature != "S1"

/-! ## Token metadata (DiscordNotifier.getTokenMetadata) -/

/-- Model of `TokenMetadata` from src/discordNotifier.ts. -/
structure TokenMetadata where
  symbol : String
  name : String
  decimals : Nat
  price : Option ℚ
  marketCap : Option ℚ
deriving Repr, DecidableEq

/-- The fields `getTokenMetadata` reads from a successful `getAsset`
response (`asset?.content?.metadata?.symbol` etc.). -/
structure AssetInfo where
  symbol : Option String
  name : Option String
  decimals : Option Nat
deriving Repr, DecidableEq

/-- The fields read from a successful price response for one mint. -/
structure PriceData where
  price : Option ℚ
  marketCap : Option ℚ
deriving Repr, DecidableEq

/-- The fallback metadata substituted when the metadata request fails. -/
def fallbackMetadata : TokenMetadata :=
  { symbol := "UNKNOWN", name := "Unknown Token", decimals := 9
    price := none, marketCap := none }

/-- Lookup in the process-wide token cache (a `Map` keyed by mint address;
the model prepends on write, so the head-first scan sees the latest
entry, matching `Map.set`/`Map.get` behaviour). -/
def cacheGet (cache : List (String × TokenMetadata)) (mintAddress : String) :
    Option TokenMetadata :=
  (cache.find? (fun e => e.1 == mintAddress)).map (fun e => e.2)

/-- Model of `DiscordNotifier.getTokenMetadata`, with the two network calls as
oracles (`none` = request failed or threw).  Returns the resolved
metadata, the updated cache, and whether the external metadata lookup was
invoked. -/
def getTokenMetadata (lookup : String → Option AssetInfo)
    (priceLookup : String → Option PriceData)
    (cache : List (String × TokenMetadata)) (mintAddress : String) :
    TokenMetadata × List (String × TokenMetadata) × Bool :=
  match cacheGet cache mintAddress with
  | some cached => (cached, cache, false)
  | none =>
      match lookup mintAddress with
      | some asset =>
          let base : TokenMetadata :=
            { symbol := strFalsy asset.symbol "UNKNOWN"
              name := strFalsy asset.name "Unknown Token"
              decimals := natFalsy asset.decimals 9
              price := none, marketCap := none }
          let metadata :=
            match priceLookup mintAddress with
            | some pd => { base with price := pd.price, marketCap := pd.marketCap }
            | none => base
          (metadata, (mintAddress, metadata) :: cache, true)
      | none => (fallbackMetadata, (mintAddress, fallbackMetadata) :: cache, true)

/-! ## Transfer analysis (DiscordNotifier.analyzeTransaction) -/

/-- The `'BUY' | 'SELL' | 'TRANSFER'` tag. -/
inductive TransferType where
  | BUY
  | SELL
  | TRANSFER
deriving Repr, DecidableEq

/-- Model of `EnhancedTransfer` from src/discordNotifier.ts.  Display-unit amounts
are rationals (see the header comment). -/
structure EnhancedTransfer where
  type : TransferType
  tokenAddress : String
  tokenSymbol : String
  tokenAmount : ℚ
  solAmount : Option ℚ
  usdAmount : Option ℚ
  marketCap : Option ℚ
  fromAddress : String
  toAddress : String
  isUserSender : Bool
deriving Repr, DecidableEq

/-- The SOL mint address constant used for pure native transfers. -/
def solMint : String := "So11111111111111111111111111111111111111112"

/-- JS `transaction.nativeTransfers?.find(...)`: the native transfer in the
opposite direction to the token movement. -/
def findCorrespondingSOL (t : TransactionData) (walletAddress : String)
    (isUserSender isUserReceiver : Bool) : Option NativeTransfer :=
  t.nativeTransfers.find? (fun solTransfer =>
    (isUserSender && (solTransfer.toUserAccount == walletAddress)) ||
    (isUserReceiver && (solTransfer.fromUserAccount == walletAddress)))

/-- The body of the token-transfer loop of `analyzeTransaction` for one
token transfer: the enhanced entry pushed, if any.  `metadata` is the
resolved per-mint metadata (the cache-threading of `getTokenMetadata` is
settled separately). -/
def tokenEntry (metadata : String → TokenMetadata) (t : TransactionData)
    (walletAddress : String) (transfer : TokenTransfer) : Option EnhancedTransfer :=
  let isUserSender := transfer.fromUserAccount == walletAddress
  let isUserReceiver := transfer.toUserAccount == walletAddress
  if !isUserSender && !isUserReceiver then none
  else
    let tokenMetadata := metadata transfer.mint
    let tokenAmount : ℚ := (transfer.tokenAmount : ℚ) / (10 : ℚ) ^ tokenMetadata.decimals
    match findCorrespondingSOL t walletAddress isUserSender isUserReceiver with
    | some sol =>
        let solAmount : ℚ := (sol.amount : ℚ) / 1000000000
        some { type := if isUserSender then TransferType.SELL else TransferType.BUY
               tokenAddress := transfer.mint
               tokenSymbol := tokenMetadata.symbol
               tokenAmount := tokenAmount
               solAmount := some solAmount
               usdAmount := if solAmount = 0 then none else some (solAmount * 100)
               marketCap := tokenMetadata.marketCap
               fromAddress := transfer.fromUserAccount
               toAddress := transfer.toUserAccount
               isUserSender := isUserSender }
    | none =>
        some { type := TransferType.TRANSFER
               tokenAddress := transfer.mint
               tokenSymbol := tokenMetadata.symbol
               tokenAmount := tokenAmount
               solAmount := none
               usdAmount := none
               marketCap := tokenMetadata.marketCap
               fromAddress := transfer.fromUserAccount
               toAddress := transfer.toUserAccount
               isUserSender := isUserSender }

/-- The body of the pure-SOL loop of `analyzeTransaction`: appends a
TRANSFER entry unless the wallet is uninvolved or an already-emitted
entry has a truthy `solAmount` within `1e-6` of this transfer's amount. -/
def nativeStep (walletAddress : String) (acc : List EnhancedTransfer)
    (transfer : NativeTransfer) : List EnhancedTransfer :=
  let isUserSender := transfer.fromUserAccount == walletAddress
  let isUserReceiver := transfer.toUserAccount == walletAddress
  if !isUserSender && !isUserReceiver then acc
  else
    let solAmount : ℚ := (transfer.amount : ℚ) / 1000000000
    let alreadyProcessed := acc.any (fun et =>
      match et.solAmount with
      | some s => decide (s ≠ 0) && decide (|s - solAmount| < 1 / 1000000)
      | none => false)
    if alreadyProcessed then acc
    else
      acc ++ [{ type := TransferType.TRANSFER
                tokenAddress := solMint
                tokenSymbol := "SOL"
                tokenAmount := solAmount
                solAmount := some solAmount
                usdAmount := some (solAmount * 100)
                marketCap := none
                fromAddress := transfer.fromUserAccount
                toAddress := transfer.toUserAccount
                isUserSender := isUserSender }]

/-- Model of `DiscordNotifier.analyzeTransaction`. -/
def analyzeTransaction (metadata : String → TokenMetadata)
    (t : TransactionData) (walletAddress : String) : List EnhancedTransfer :=
  let afterTokens := t.tokenTransfers.filterMap (tokenEntry metadata t walletAddress)
  t.nativeTransfers.foldl (nativeStep walletAddress) afterTokens

/-! ## Formatter fixtures -/

/-- Metadata oracle resolving every mint to a 6-decimal token "TKN". -/
def mdTKN : String → TokenMetadata :=
  fun _ => { symbol := "TKN", name := "Token", decimals := 6
             price := none, marketCap := none }

/-- Wallet "W" receives 100 raw units of mint "M" and sends 2 SOL. -/
def buyTx : TransactionData :=
  { signature := "sigBuy", slot := 0, timestamp := 0, fee := 0, feePayer := "W"
    instructions := []
    nativeTransfers := [⟨"W", "P", 2000000000⟩]
    tokenTransfers := [⟨"P", "W", "ta1", "ta2", 100, "M", "fungible"⟩]
    accountData := [], transactionError := none, type := "SWAP"
    source := "helius", description := "swap" }

/-- Wallet "W" sends 100 raw units of mint "M" and receives 3 SOL. -/
def sellTx : TransactionData :=
  { buyTx with
      signature := "sigSell"
      nativeTransfers := [⟨"P", "W", 3000000000⟩]
      tokenTransfers := [⟨"W", "P", "ta2", "ta1", 100, "M", "fungible"⟩] }

/-- Wallet "W" receives 100 raw units of mint "M" with no native leg. -/
def plainTokenTx : TransactionData :=
  { buyTx with
      signature := "sigTok"
      nativeTransfers := []
      tokenTransfers := [⟨"P", "W", "ta1", "ta2", 100, "M", "fungible"⟩] }

/-- Two native transfers of the same lamport amount (1 SOL), both
touching wallet "W", and no token transfers at all. -/
def dupNativeTx : TransactionData :=
  { buyTx with
      signature := "sigDup"
      nativeTransfers := [⟨"W", "A", 1000000000⟩, ⟨"B", "W", 1000000000⟩]
      tokenTransfers := [] }

/-- The single BUY entry expected for `buyTx` under `mdTKN`. -/
def buyEntry : EnhancedTransfer :=
  { type := TransferType.BUY, tokenAddress := "M", tokenSymbol := "TKN"
    tokenAmount := 1 / 10000, solAmount := some 2, usdAmount := some 200
    marketCap := none, fromAddress := "P", toAddress := "W"
    isUserSender := false }

/-- The single SELL entry expected for `sellTx` under `mdTKN`. -/
def sellEntry : EnhancedTransfer :=
  { type := TransferType.SELL, tokenAddress := "M", tokenSymbol := "TKN"
    tokenAmount := 1 / 10000, solAmount := some 3, usdAmount := some 300
    marketCap := none, fromAddress := "W", toAddress := "P"
    isUserSender := true }

/-- The single TRANSFER entry expected for `plainTokenTx` under `mdTKN`. -/
def plainTokenEntry : EnhancedTransfer :=
  { type := TransferType.TRANSFER, tokenAddress := "M", tokenSymbol := "TKN"
    tokenAmount := 1 / 10000, solAmount := none, usdAmount := none
    marketCap := none, fromAddress := "P", toAddress := "W"
    isUserSender := false }

/-- The single TRANSFER entry expected for `dupNativeTx`. -/
def dupNativeEntry : EnhancedTransfer :=
  { type := TransferType.TRANSFER, tokenAddress := solMint, tokenSymbol := "SOL"
    tokenAmount := 1, solAmount := some 1, usdAmount := some 100
    marketCap := none, fromAddress := "W", toAddress := "A"
    isUserSender := true }

end Wallet

namespace Wallet

/-! ## First theorems: C8 (address truncation) -/

/-- Claim C8: addresses of length ≤ 12 are returned unchanged; longer
addresses become first-6 + "..." + last-6; in particular a 12-character
address is unchanged and a 13-character one becomes `first6...last6`. -/
theorem c8_truncate_address :
    (∀ s : String, s.length ≤ 12 → truncateAddress s = s) ∧
    (∀ s : String, 12 < s.length →
      truncateAddress s = s.take 6 ++ "..." ++ s.drop (s.length - 6)) ∧
    truncateAddress "abcdefghijkl" = "abcdefghijkl" ∧
    truncateAddress "abcdefghijklm" = "abcdef...hijklm" := by
  refine ⟨fun s h => ?_, fun s h => ?_, by decide, by decide⟩
  · simp [truncateAddress, h]
  · simp [truncateAddress, Nat.not_le.mpr h]

/-- Witness for C8 at a concrete 13-character address. -/
theorem c8_truncate_address_witness :
    truncateAddress "abcdefghijklm" =
      "abcdefghijklm".take 6 ++ "..." ++ "abcdefghijklm".drop ("abcdefghijklm".length - 6) :=
  c8_truncate_address.2.1 "abcdefghijklm" (by decide)

/-! ## Involvement-matcher lemmas -/

theorem mem_setAdd {acc : List String} {x a : String} :
    a ∈ setAdd acc x ↔ a ∈ acc ∨ a = x := by
  unfold setAdd
  by_cases h : x ∈ acc
  · simp only [if_pos h]
    constructor
    · exact Or.inl
    · rintro (ha | rfl)
      · exact ha
      · exact h
  · simp [if_neg h]

theorem mem_addIfTracked {tracked acc : List String} {x a : String} :
    a ∈ addIfTracked tracked acc x ↔ a ∈ acc ∨ (x ∈ tracked ∧ a = x) := by
  unfold addIfTracked
  split <;> simp_all [mem_setAdd]

theorem mem_foldl_pair {α : Type} (tracked : List String) (f g : α → String)
    (l : List α) (acc : List String) (a : String) :
    a ∈ l.foldl (fun acc e =>
        addIfTracked tracked (addIfTracked tracked acc (f e)) (g e)) acc ↔
      a ∈ acc ∨ ∃ e ∈ l, (f e ∈ tracked ∧ a = f e) ∨ (g e ∈ tracked ∧ a = g e) := by
  induction l generalizing acc with
  | nil => simp
  | cons e l ih =>
      rw [List.foldl_cons, ih]
      simp only [mem_addIfTracked, List.mem_cons]
      constructor
      · rintro (((h | h) | h) | ⟨e', he', h⟩)
        · exact Or.inl h
        · exact Or.inr ⟨e, Or.inl rfl, Or.inl h⟩
        · exact Or.inr ⟨e, Or.inl rfl, Or.inr h⟩
        · exact Or.inr ⟨e', Or.inr he', h⟩
      · rintro (h | ⟨e', (rfl | he'), h⟩)
        · exact Or.inl (Or.inl (Or.inl h))
        · rcases h with h | h
          · exact Or.inl (Or.inl (Or.inr h))
          · exact Or.inl (Or.inr h)
        · exact Or.inr ⟨e', he', h⟩

theorem mem_foldl_single {α : Type} (tracked : List String) (f : α → String)
    (l : List α) (acc : List String) (a : String) :
    a ∈ l.foldl (fun acc e => addIfTracked tracked acc (f e)) acc ↔
      a ∈ acc ∨ ∃ e ∈ l, f e ∈ tracked ∧ a = f e := by
  induction l generalizing acc with
  | nil => simp
  | cons e l ih =>
      rw [List.foldl_cons, ih]
      simp only [mem_addIfTracked, List.mem_cons]
      constructor
      · rintro ((h | h) | ⟨e', he', h⟩)
        · exact Or.inl h
        · exact Or.inr ⟨e, Or.inl rfl, h⟩
        · exact Or.inr ⟨e', Or.inr he', h⟩
      · rintro (h | ⟨e', (rfl | he'), h⟩)
        · exact Or.inl (Or.inl h)
        · exact Or.inl (Or.inr h)
        · exact Or.inr ⟨e', he', h⟩

theorem nodup_setAdd {acc : List String} (x : String) (h : acc.Nodup) :
    (setAdd acc x).Nodup := by
  unfold setAdd
  split <;> simp_all [List.nodup_append]

theorem nodup_addIfTracked {tracked acc : List String} (x : String) (h : acc.Nodup) :
    (addIfTracked tracked acc x).Nodup := by
  unfold addIfTracked
  split
  · exact nodup_setAdd x h
  · exact h

theorem nodup_foldl_pair {α : Type} (tracked : List String) (f g : α → String)
    (l : List α) (acc : List String) (h : acc.Nodup) :
    (l.foldl (fun acc e =>
        addIfTracked tracked (addIfTracked tracked acc (f e)) (g e)) acc).Nodup := by
  induction l generalizing acc with
  | nil => exact h
  | cons e l ih =>
      exact ih _ (nodup_addIfTracked _ (nodup_addIfTracked _ h))

theorem nodup_foldl_single {α : Type} (tracked : List String) (f : α → String)
    (l : List α) (acc : List String) (h : acc.Nodup) :
    (l.foldl (fun acc e => addIfTracked tracked acc (f e)) acc).Nodup := by
  induction l generalizing acc with
  | nil => exact h
  | cons e l ih => exact ih _ (nodup_addIfTracked _ h)

/-- Claim C3: the matcher returns a tracked address iff it is the fee payer,
a party of some native or token transfer, or the account of some account
delta (exact string equality); the result is deduplicated; and the
concrete native-transfer round trips hold. -/
theorem c3_involvement_characterization :
    (∀ (t : TransactionData) (tracked : List String) (a : String),
      a ∈ findInvolvedWallets t tracked ↔
        a ∈ tracked ∧
          (a = t.feePayer ∨
           (∃ nt ∈ t.nativeTransfers, a = nt.fromUserAccount ∨ a = nt.toUserAccount) ∨
           (∃ tt ∈ t.tokenTransfers, a = tt.fromUserAccount ∨ a = tt.toUserAccount) ∨
           (∃ ad ∈ t.accountData, a = ad.account))) ∧
    (∀ (t : TransactionData) (tracked : List String),
      (findInvolvedWallets t tracked).Nodup) ∧
    findInvolvedWallets nativeOnlyTx ["X"] = ["X"] ∧
    findInvolvedWallets nativeOnlyTx ["Y"] = ["Y"] ∧
    findInvolvedWallets nativeOnlyTx ["Z"] = [] := by
  refine ⟨fun t tracked a => ?_, fun t tracked => ?_, by decide, by decide, by decide⟩
  · unfold findInvolvedWallets
    rw [mem_foldl_single, mem_foldl_pair, mem_foldl_pair]
    simp only [mem_addIfTracked, List.not_mem_nil, false_or]
    constructor
    · rintro (((⟨hft, rfl⟩ | ⟨e, he, (⟨ht, rfl⟩ | ⟨ht, rfl⟩)⟩) |
        ⟨e, he, (⟨ht, rfl⟩ | ⟨ht, rfl⟩)⟩) | ⟨e, he, ht, rfl⟩)
      · exact ⟨hft, Or.inl rfl⟩
      · exact ⟨ht, Or.inr (Or.inl ⟨e, he, Or.inl rfl⟩)⟩
      · exact ⟨ht, Or.inr (Or.inl ⟨e, he, Or.inr rfl⟩)⟩
      · exact ⟨ht, Or.inr (Or.inr (Or.inl ⟨e, he, Or.inl rfl⟩))⟩
      · exact ⟨ht, Or.inr (Or.inr (Or.inl ⟨e, he, Or.inr rfl⟩))⟩
      · exact ⟨ht, Or.inr (Or.inr (Or.inr ⟨e, he, rfl⟩))⟩
    · rintro ⟨ha, (rfl | ⟨e, he, (rfl | rfl)⟩ | ⟨e, he, (rfl | rfl)⟩ | ⟨e, he, rfl⟩)⟩
      · exact Or.inl (Or.inl (Or.inl ⟨ha, rfl⟩))
      · exact Or.inl (Or.inl (Or.inr ⟨e, he, Or.inl ⟨ha, rfl⟩⟩))
      · exact Or.inl (Or.inl (Or.inr ⟨e, he, Or.inr ⟨ha, rfl⟩⟩))
      · exact Or.inl (Or.inr ⟨e, he, Or.inl ⟨ha, rfl⟩⟩)
      · exact Or.inl (Or.inr ⟨e, he, Or.inr ⟨ha, rfl⟩⟩)
      · exact Or.inr ⟨e, he, ha, rfl⟩
  · exact nodup_foldl_single _ _ _ _
      (nodup_foldl_pair _ _ _ _ _
        (nodup_foldl_pair _ _ _ _ _
          (nodup_addIfTracked _ List.nodup_nil)))

/-- Claim C2, counterexample: the matcher does not return the empty set for
every empty-signature transaction — with fee payer "X" tracked it returns
["X"]. -/
theorem c2_counterexample :
    ¬ findInvolvedWallets emptySigTx ["X"] = [] := by decide

/-- Claim C2, amended: the matcher ignores the signature field entirely —
its result is invariant under replacing the signature — so an
empty-signature transaction is matched exactly like any other; in
particular `emptySigTx` with tracked fee payer "X" yields ["X"], and an
empty-signature transaction touching no tracked address yields []. -/
theorem c2_amended_matcher_ignores_signature :
    (∀ (t : TransactionData) (tracked : List String) (s : String),
      findInvolvedWallets { t with signature := s } tracked =
        findInvolvedWallets t tracked) ∧
    findInvolvedWallets emptySigTx ["X"] = ["X"] ∧
    findInvolvedWallets emptySigTx ["Q"] = [] := by
  exact ⟨fun t tracked s => rfl, by decide, by decide⟩

/-! ## Native-transfer inference lemmas (C1) -/

theorem findJFrom_first {pre post : List Int} {i : Nat} {d : Int} :
    ∀ (fuel j j' : Nat), findJFrom pre post i d fuel j = some j' →
      j ≤ j' ∧ matchesAt pre post d i j' = true ∧
        ∀ k, j ≤ k → k < j' → matchesAt pre post d i k = false := by
  intro fuel
  induction fuel with
  | zero => intro j j' h; simp [findJFrom] at h
  | succ fuel ih =>
      intro j j' h
      unfold findJFrom at h
      by_cases hm : matchesAt pre post d i j = true
      · rw [if_pos hm] at h
        obtain rfl : j = j' := by injection h
        exact ⟨Nat.le_refl _, hm, fun k hk1 hk2 => absurd hk1 (by omega)⟩
      · rw [if_neg hm] at h
        obtain ⟨h1, h2, h3⟩ := ih (j + 1) j' h
        refine ⟨by omega, h2, fun k hk1 hk2 => ?_⟩
        by_cases hkj : k = j
        · subst hkj
          exact Bool.not_eq_true _ |>.mp hm
        · exact h3 k (by omega) hk2

theorem findMatchingJ_first {pre post : List Int} {i : Nat} {d : Int} {j : Nat}
    (h : findMatchingJ pre post i d = some j) :
    matchesAt pre post d i j = true ∧ ∀ k < j, matchesAt pre post d i k = false := by
  obtain ⟨-, h2, h3⟩ := findJFrom_first pre.length 0 j h
  exact ⟨h2, fun k hk => h3 k (Nat.zero_le k) hk⟩

theorem nativeTransferAt_of_match (pre post : List Int) (keys : List String)
    (i : Nat) (d : Int) (j : Nat) (hd : deltaAt pre post i = some d)
    (hdne : d ≠ 0) (hj : findMatchingJ pre post i d = some j) :
    nativeTransferAt pre post keys i = some (pairedTransfer keys i j d) ∧
      pairedTransfer keys i j d ∈ extractNativeTransfers pre post keys := by
  have hi : i < pre.length := by
    by_contra hge
    have hnone : pre.get? i = none := List.get?_eq_none.mpr (by omega)
    unfold deltaAt at hd
    rw [hnone] at hd
    simp at hd
  have heq : nativeTransferAt pre post keys i = some (pairedTransfer keys i j d) := by
    unfold nativeTransferAt
    rw [hd]
    simp [hj, Int.natAbs_pos.mpr hdne, pairedTransfer]
  exact ⟨heq, List.mem_filterMap.mpr ⟨i, List.mem_range.mpr hi, heq⟩⟩

/-- Claim C1, counterexample: at the spec's concrete scenario the extractor
emits two transfers, not exactly one. -/
theorem c1_counterexample :
    ¬ (extractNativeTransfers [1000000000, 500000000] [999995000, 500005000]
        ["A", "B"]).length = 1 := by decide

/-- Claim C1, amended: at the concrete scenario the extractor emits exactly
two identical native transfers (one contributed by each nonzero-delta
index), both from "A" to "B" with amount 5000; in general each index `i`
contributes at most one transfer, and an index `i` with nonzero delta `d`
whose first matching index (in order) is `j` contributes the transfer
whose sender is the negative-delta side and whose amount is `|d|`. -/
theorem c1_amended_native_inference :
    extractNativeTransfers [1000000000, 500000000] [999995000, 500005000] ["A", "B"] =
      [⟨"A", "B", 5000⟩, ⟨"A", "B", 5000⟩] ∧
    (∀ (pre post : List Int) (keys : List String),
      extractNativeTransfers pre post keys =
        (List.range pre.length).filterMap (nativeTransferAt pre post keys)) ∧
    (∀ (pre post : List Int) (keys : List String),
      (extractNativeTransfers pre post keys).length ≤ pre.length) ∧
    (∀ (pre post : List Int) (keys : List String) (i : Nat) (d : Int) (j : Nat),
      deltaAt pre post i = some d → d ≠ 0 → findMatchingJ pre post i d = some j →
        nativeTransferAt pre post keys i = some (pairedTransfer keys i j d) ∧
          pairedTransfer keys i j d ∈ extractNativeTransfers pre post keys) ∧
    (∀ (pre post : List Int) (i : Nat) (d : Int) (j : Nat),
      findMatchingJ pre post i d = some j →
        matchesAt pre post d i j = true ∧
          ∀ k < j, matchesAt pre post d i k = false) := by
  refine ⟨by decide, fun pre post keys => rfl, fun pre post keys => ?_,
    nativeTransferAt_of_match, fun pre post i d j h => findMatchingJ_first h⟩
  calc (extractNativeTransfers pre post keys).length
      ≤ (List.range pre.length).length := List.length_filterMap_le _ _
    _ = pre.length := List.length_range _

/-- Witness for C1 at the scenario input, index 0 (delta −5000, matched
with index 1). -/
theorem c1_amended_native_inference_witness :
    nativeTransferAt [1000000000, 500000000] [999995000, 500005000] ["A", "B"] 0 =
        some (pairedTransfer ["A", "B"] 0 1 (-5000)) ∧
      pairedTransfer ["A", "B"] 0 1 (-5000) ∈
        extractNativeTransfers [1000000000, 500000000] [999995000, 500005000] ["A", "B"] :=
  c1_amended_native_inference.2.2.2.1 [1000000000, 500000000]
    [999995000, 500005000] ["A", "B"] 0 (-5000) 1 (by decide) (by decide) (by decide)

/-! ## Normalization lemmas (C4, C10) -/

theorem parseRawTransaction_isSome {d : WebhookItem} {now : Int}
    (h : isRawShape d = true) : (parseRawTransaction d now).isSome := by
  unfold isRawShape at h
  rw [Bool.and_eq_true] at h
  obtain ⟨tx, htx⟩ := Option.isSome_iff_exists.mp h.1
  obtain ⟨m, hm⟩ := Option.isSome_iff_exists.mp h.2
  unfold parseRawTransaction
  rw [htx, hm]
  rfl

theorem parse_isSome (d : WebhookItem) (now : Int) :
    (parseTransactionData d now).isSome = (isEnhancedShape d || isRawShape d) := by
  unfold parseTransactionData
  by_cases he : isEnhancedShape d = true
  · simp [he]
  · have he' : isEnhancedShape d = false := by simpa using he
    by_cases hr : isRawShape d = true
    · simp [he', hr, parseRawTransaction_isSome hr]
    · have hr' : isRawShape d = false := by simpa using hr
      simp [he', hr']

/-- Claim C4: an array body is normalized elementwise and independently —
the result is the `filterMap` of per-item parsing, its length is the
number of well-shaped (enhanced or raw) items, and concretely one
malformed item among two valid ones yields exactly two canonical
transactions. -/
theorem c4_array_elements_independent :
    (∀ (items : List WebhookItem) (now : Int),
      extractTransactions (.arr items) now =
        items.filterMap (fun item => parseTransactionData item now)) ∧
    (∀ (items : List WebhookItem) (now : Int),
      (extractTransactions (.arr items) now).length =
        items.countP (fun item => isEnhancedShape item || isRawShape item)) ∧
    (extractTransactions (.arr [enhItem, blankItem, rawItemGood]) 0).length = 2 := by
  have hlen : ∀ (items : List WebhookItem) (now : Int),
      (items.filterMap (fun item => parseTransactionData item now)).length =
        items.countP (fun item => isEnhancedShape item || isRawShape item) := by
    intro items now
    induction items with
    | nil => rfl
    | cons it its ih =>
        rw [List.filterMap_cons, List.countP_cons]
        rcases hp : parseTransactionData it now with _ | t
        · have hshape : (isEnhancedShape it || isRawShape it) = false := by
            rw [← parse_isSome it now, hp]; rfl
          simp [hshape, ih]
        · have hshape : (isEnhancedShape it || isRawShape it) = true := by
            rw [← parse_isSome it now, hp]; rfl
          simp [hshape, ih]
  exact ⟨fun items now => rfl, fun items now => hlen items now, by decide⟩

/-- Claim C10: a transaction parsed through the enhanced branch has
non-empty signature and type (the dispatch requires both truthy); an
empty-signature result can only come from the raw branch, and the raw
branch yields an empty signature when the payload's signature list is
empty. -/
theorem c10_shape_dispatch_signature :
    ∀ (d : WebhookItem) (now : Int) (t : TransactionData),
      parseTransactionData d now = some t →
        (isEnhancedShape d = true → t.signature ≠ "" ∧ t.type ≠ "") ∧
        (t.signature = "" → isEnhancedShape d = false ∧ isRawShape d = true) ∧
        (∀ tx, d.transaction = some tx → tx.signatures = [] →
          isEnhancedShape d = false → t.signature = "") := by
  intro d now t h
  by_cases he : isEnhancedShape d = true
  · unfold parseTransactionData at h
    rw [if_pos he] at h
    injection h with h'
    subst h'
    have he2 := he
    unfold isEnhancedShape at he2
    rw [Bool.and_eq_true] at he2
    have hsig : (Option.getD d.signature "") ≠ "" := by
      rcases hs : d.signature with _ | s
      · rw [hs] at he2; exact absurd he2.2 (by simp [strTruthy])
      · have := he2.2
        rw [hs] at this
        unfold strTruthy at this
        simpa using this
    have htype : (Option.getD d.type "") ≠ "" := by
      rcases hs : d.type with _ | s
      · rw [hs] at he2; exact absurd he2.1 (by simp [strTruthy])
      · have := he2.1
        rw [hs] at this
        unfold strTruthy at this
        simpa using this
    refine ⟨fun _ => ⟨hsig, htype⟩, fun hempty => absurd hempty hsig, ?_⟩
    intro tx _ _ hef
    exact absurd he (by simp [hef])
  · have he' : isEnhancedShape d = false := by simpa using he
    unfold parseTransactionData at h
    rw [if_neg he] at h
    by_cases hr : isRawShape d = true
    · rw [if_pos hr] at h
      have hr2 := hr
      unfold isRawShape at hr2
      rw [Bool.and_eq_true] at hr2
      obtain ⟨tx, htx⟩ := Option.isSome_iff_exists.mp hr2.1
      obtain ⟨m, hm⟩ := Option.isSome_iff_exists.mp hr2.2
      unfold parseRawTransaction at h
      rw [htx, hm] at h
      injection h with h'
      subst h'
      refine ⟨fun hef => absurd hef (by simp [he']), fun _ => ⟨he', hr⟩, ?_⟩
      intro tx' htx' hsigs _
      rw [htx] at htx'
      injection htx' with h2
      subst h2
      simp [strFalsy, hsigs]
    · have hr' : isRawShape d = false := by simpa using hr
      rw [if_neg hr] at h
      exact Option.noConfusion h

/-- Witness for C10 at the concrete enhanced item `enhItem`. -/
theorem c10_shape_dispatch_signature_witness :
    tEnh.signature ≠ "" ∧ tEnh.type ≠ "" :=
  (c10_shape_dispatch_signature enhItem 0 tEnh (by decide)).1 (by decide)

/-! ## Delivery isolation (C5) -/

theorem runNotifyLoop_eq_takeWhile (deliver : TransactionData → String → Bool)
    (t : TransactionData) (ws : List String) :
    runNotifyLoop deliver t ws = ws.takeWhile (deliver t) := by
  induction ws with
  | nil => rfl
  | cons w ws ih =>
      unfold runNotifyLoop
      rw [List.takeWhile_cons]
      cases hd : deliver t w <;> simp [hd, ih]

/-- Claim C5, counterexample: wallet "Y" is implicated in `nativeOnlyTx` and
its own delivery would succeed, yet after delivery for "X" fails (all
retries exhausted) no wallet at all is notified for this transaction —
the failure for the pair (tx, "X") does prevent the notification for
(tx, "Y"). -/
theorem c5_counterexample :
    "Y" ∈ findInvolvedWallets nativeOnlyTx ["X", "Y"] ∧
    deliverOutcome failXAttempts nativeOnlyTx "Y" = true ∧
    handleSingleTransaction (deliverOutcome failXAttempts) ["X", "Y"] nativeOnlyTx
      = [] := by
  refine ⟨by decide, by decide, by decide⟩

/-- Claim C5, amended: an exhausted-retries delivery failure is terminal
for its (transaction, address) pair and additionally aborts the
notifications for the *remaining* implicated addresses of the same
transaction (the notified wallets are the longest successful prefix of
the involved list); it does not abort the other transactions of the same
webhook batch, each of which is handled independently — concretely, with
delivery failing for transaction "S1" only, transaction "S2" of the same
batch is still notified. -/
theorem c5_amended_failure_isolation :
    (∀ (deliver : TransactionData → String → Bool) (tracked : List String)
        (t : TransactionData),
      handleSingleTransaction deliver tracked t =
        (findInvolvedWallets t tracked).takeWhile (deliver t)) ∧
    (∀ (deliver : TransactionData → String → Bool) (tracked : List String)
        (items : List WebhookItem) (now : Int),
      processTransaction deliver tracked (.arr items) now =
        ((items.filterMap (fun item => parseTransactionData item now)).map (fun t =>
          (handleSingleTransaction deliver tracked t).map
            (fun w => (t.signature, w)))).flatten) ∧
    processTransaction (deliverOutcome failS1Attempts) ["X"]
        (.arr [enhItem, enhItem2]) 0 = [("S2", "X")] := by
  exact ⟨fun deliver tracked t =>
      runNotifyLoop_eq_takeWhile deliver t (findInvolvedWallets t tracked),
    fun deliver tracked items now => rfl, by decide⟩

/-! ## Metadata cache (C7) -/

theorem cacheGet_cons_self (cache : List (String × TokenMetadata))
    (mintAddress : String) (md : TokenMetadata) :
    cacheGet ((mintAddress, md) :: cache) mintAddress = some md := by
  simp [cacheGet, List.find?]

/-- Claim C7: resolving the same mint twice hits the cache on the second
call (the external lookup is not invoked again, and the same metadata and
cache come back); and when the cache misses and the external lookup
fails, the fallback record (symbol "UNKNOWN", 9 decimals) is returned and
cached. -/
theorem c7_metadata_cache_idempotent :
    (∀ (lookup : String → Option AssetInfo) (priceLookup : String → Option PriceData)
        (cache : List (String × TokenMetadata)) (mintAddress : String)
        (md1 : TokenMetadata) (cache1 : List (String × TokenMetadata)) (b1 : Bool),
      getTokenMetadata lookup priceLookup cache mintAddress = (md1, cache1, b1) →
        getTokenMetadata lookup priceLookup cache1 mintAddress = (md1, cache1, false)) ∧
    (∀ (lookup : String → Option AssetInfo) (priceLookup : String → Option PriceData)
        (cache : List (String × TokenMetadata)) (mintAddress : String),
      cacheGet cache mintAddress = none → lookup mintAddress = none →
        getTokenMetadata lookup priceLookup cache mintAddress =
          (fallbackMetadata, (mintAddress, fallbackMetadata) :: cache, true) ∧
        fallbackMetadata.symbol = "UNKNOWN" ∧ fallbackMetadata.decimals = 9) := by
  constructor
  · intro lookup priceLookup cache mintAddress md1 cache1 b1 h
    rcases hc : cacheGet cache mintAddress with _ | md
    · unfold getTokenMetadata at h
      rw [hc] at h
      rcases hl : lookup mintAddress with _ | asset
      · rw [hl] at h
        rw [Prod.mk.injEq, Prod.mk.injEq] at h
        obtain ⟨h1, h2, -⟩ := h
        subst h1; subst h2
        unfold getTokenMetadata
        rw [cacheGet_cons_self]
      · rw [hl] at h
        rw [Prod.mk.injEq, Prod.mk.injEq] at h
        obtain ⟨h1, h2, -⟩ := h
        subst h1
        subst h2
        unfold getTokenMetadata
        rw [cacheGet_cons_self]
    · unfold getTokenMetadata at h
      rw [hc] at h
      rw [Prod.mk.injEq, Prod.mk.injEq] at h
      obtain ⟨h1, h2, -⟩ := h
      subst h1; subst h2
      unfold getTokenMetadata
      rw [hc]
  · intro lookup priceLookup cache mintAddress hc hl
    refine ⟨?_, rfl, rfl⟩
    unfold getTokenMetadata
    rw [hc, hl]

/-- Witness for C7: an always-failing lookup on an empty cache yields the
cached fallback. -/
theorem c7_metadata_cache_idempotent_witness :
    getTokenMetadata (fun _ => none) (fun _ => none) [] "M" =
      (fallbackMetadata, ("M", fallbackMetadata) :: [], true) ∧
    fallbackMetadata.symbol = "UNKNOWN" ∧ fallbackMetadata.decimals = 9 :=
  c7_metadata_cache_idempotent.2 (fun _ => none) (fun _ => none) [] "M" rfl rfl

/-! ## Swap classification (C6) and native dedupe (C9) -/

/-- Claim C6: in the concrete scenario (wallet receives 100 raw units of
mint "M" and sends 2 SOL) the transfer is classified BUY with
solAmount 2 and tokenAmount scaled by the resolved decimals; the
symmetric concrete send-with-native-receive is SELL, a token transfer
with no native leg is TRANSFER; and in general every emitted token entry
has its amount scaled by the resolved decimals, is TRANSFER with no
solAmount when no corresponding opposite-direction native transfer
exists, and otherwise is SELL when the wallet sent the token and BUY when
it received it, with solAmount the matched native amount over 1e9. -/
theorem c6_swap_classification :
    analyzeTransaction mdTKN buyTx "W" = [buyEntry] ∧
    analyzeTransaction mdTKN sellTx "W" = [sellEntry] ∧
    analyzeTransaction mdTKN plainTokenTx "W" = [plainTokenEntry] ∧
    (∀ (metadata : String → TokenMetadata) (t : TransactionData)
        (walletAddress : String) (transfer : TokenTransfer) (e : EnhancedTransfer),
      tokenEntry metadata t walletAddress transfer = some e →
        e.tokenAmount =
          (transfer.tokenAmount : ℚ) / (10 : ℚ) ^ (metadata transfer.mint).decimals ∧
        (findCorrespondingSOL t walletAddress
            (transfer.fromUserAccount == walletAddress)
            (transfer.toUserAccount == walletAddress) = none →
          e.type = TransferType.TRANSFER ∧ e.solAmount = none) ∧
        (∀ sol, findCorrespondingSOL t walletAddress
            (transfer.fromUserAccount == walletAddress)
            (transfer.toUserAccount == walletAddress) = some sol →
          e.solAmount = some ((sol.amount : ℚ) / 1000000000) ∧
          e.type = (if transfer.fromUserAccount == walletAddress
                    then TransferType.SELL else TransferType.BUY))) := by
  refine ⟨?_, ?_, ?_, ?_⟩
  · simp [analyzeTransaction, buyTx, mdTKN, buyEntry, tokenEntry, nativeStep,
      findCorrespondingSOL, solMint]
    norm_num
  · simp [analyzeTransaction, sellTx, buyTx, mdTKN, sellEntry, tokenEntry, nativeStep,
      findCorrespondingSOL, solMint]
    norm_num
  · simp [analyzeTransaction, plainTokenTx, buyTx, mdTKN, plainTokenEntry, tokenEntry,
      nativeStep, findCorrespondingSOL, solMint]
    norm_num
  intro metadata t walletAddress transfer e h
  unfold tokenEntry at h
  by_cases hinv : (!(transfer.fromUserAccount == walletAddress) &&
      !(transfer.toUserAccount == walletAddress)) = true
  · rw [if_pos hinv] at h
    exact Option.noConfusion h
  · rw [if_neg hinv] at h
    rcases hf : findCorrespondingSOL t walletAddress
        (transfer.fromUserAccount == walletAddress)
        (transfer.toUserAccount == walletAddress) with _ | sol
    · rw [hf] at h
      obtain rfl := Option.some.inj h
      refine ⟨rfl, fun _ => ⟨rfl, rfl⟩, fun sol hsol => ?_⟩
      exact Option.noConfusion hsol
    · rw [hf] at h
      obtain rfl := Option.some.inj h
      refine ⟨rfl, fun hnone => ?_, fun sol' hsol => ?_⟩
      · exact Option.noConfusion hnone
      · obtain rfl := Option.some.inj hsol
        exact ⟨rfl, rfl⟩

/-- Witness for C6 applying the general clause at `plainTokenTx`. -/
theorem c6_swap_classification_witness :
    plainTokenEntry.type = TransferType.TRANSFER ∧
    plainTokenEntry.solAmount = none :=
  (c6_swap_classification.2.2.2 mdTKN plainTokenTx "W"
    ⟨"P", "W", "ta1", "ta2", 100, "M", "fungible"⟩ plainTokenEntry
    (by simp [tokenEntry, plainTokenTx, buyTx, mdTKN, plainTokenEntry,
        findCorrespondingSOL]; norm_num)).2.1 (by decide)

/-- Claim C9: two equal-amount native transfers both touching the wallet,
with no token transfers at all, produce a single TRANSFER entry — the
second one is suppressed by the amount-within-epsilon dedupe against the
already-emitted TRANSFER entry, even though no BUY/SELL leg consumed
it. -/
theorem c9_equal_amount_native_dedup :
    analyzeTransaction mdTKN dupNativeTx "W" = [dupNativeEntry] ∧
    (analyzeTransaction mdTKN dupNativeTx "W").length = 1 ∧
    dupNativeTx.tokenTransfers = [] ∧
    (dupNativeTx.nativeTransfers.map (fun transfer => transfer.amount)) =
      [1000000000, 1000000000] := by
  have h1 : analyzeTransaction mdTKN dupNativeTx "W" = [dupNativeEntry] := by
    simp [analyzeTransaction, dupNativeTx, buyTx, mdTKN, dupNativeEntry, tokenEntry,
      nativeStep, findCorrespondingSOL, solMint]
  refine ⟨h1, ?_, by decide, by decide⟩
  simp [h1]

end Wallet
